import Mathlib

/-!
Shallow embedding of the SOS game core (`src/game_logic.py`) of the
CS449 Sprint 3 repository, together with theorems settling the frozen
claims about its specification.

Modelling conventions:
* Python `int` is `Int`.
* The Python 2D lists `self.board` / `self.owner_board` (cells `None`,
  `"S"`, `"O"` resp. `None`, `"blue"`, `"red"`) are modelled as total
  functions `Int → Int → Option String`.  Every raw list access in the
  source is guarded by `in_bounds` (or by `cell_empty`), so a total
  function is a faithful model of the guarded accesses.
* Python strings stay `String`; `letter.strip().upper()` is modelled by
  `normalize_letter` (ASCII strip and upper, which agree with Python on
  the letters and whitespace this code compares against).
* The class hierarchy `BaseSOSGame` / `SimpleSOSGame` / `GeneralSOSGame`
  becomes a base record embedded in each variant record; inherited
  methods act on the `base` component only, exactly as the Python
  methods assign only the base attributes.
* Methods that mutate `self` become functions returning the new state;
  `make_move` returns `Bool × State` (the Python return value plus the
  mutated object).
-/

/-- A pointwise update of a grid modelled as a function: the effect of the
Python assignment `grid[r][c] = v`. -/
def updAt (f : Int → Int → Option String) (r c : Int) (v : Option String) :
    Int → Int → Option String :=
  fun r' c' => if r' = r ∧ c' = c then v else f r' c'

/-- State held by the Python class `BaseSOSGame` (fields assigned in
`__init__` / `reset_game`). -/
structure BaseSOSGame where
  board_size : Int
  board : Int → Int → Option String
  current_turn : String
  move_count : Int
  game_over : Bool
  last_sos_lines : List (Int × Int × Int × Int)
  last_move_player : Option String
  owner_board : Int → Int → Option String

namespace BaseSOSGame

/-- Method `BaseSOSGame.reset_game`: resets exactly the attributes listed in the
method body (board, turn, move count, game-over flag, last SOS lines,
last mover, owner board); `board_size` is kept. -/
def reset_game (g : BaseSOSGame) : BaseSOSGame :=
  { board_size := g.board_size
    board := fun _ _ => none
    current_turn := "blue"
    move_count := 0
    game_over := false
    last_sos_lines := []
    last_move_player := none
    owner_board := fun _ _ => none }

/-- Constructor `BaseSOSGame.__init__`: stores `max(3, int(board_size))` and then runs
`reset_game`; written here as the resulting record. -/
def init (board_size : Int) : BaseSOSGame :=
  { board_size := max 3 board_size
    board := fun _ _ => none
    current_turn := "blue"
    move_count := 0
    game_over := false
    last_sos_lines := []
    last_move_player := none
    owner_board := fun _ _ => none }

/-- Method `in_bounds`: `0 <= r < board_size and 0 <= c < board_size`. -/
def in_bounds (g : BaseSOSGame) (r c : Int) : Bool :=
  (0 ≤ r && r < g.board_size) && (0 ≤ c && c < g.board_size)

/-- Method `cell_empty`: in bounds and `board[r][c] is None`. -/
def cell_empty (g : BaseSOSGame) (r c : Int) : Bool :=
  g.in_bounds r c && (g.board r c == none)

/-- Method `toggle_turn`: `"red" if current_turn == "blue" else "blue"`. -/
def toggle_turn (g : BaseSOSGame) : BaseSOSGame :=
  { g with current_turn := if g.current_turn = "blue" then "red" else "blue" }

/-- Method `get_cell`: `None if not in_bounds else board[r][c]`. -/
def get_cell (g : BaseSOSGame) (r c : Int) : Option String :=
  if ¬ g.in_bounds r c then none else g.board r c

/-- Method `get_cell_owner`: `None` when out of bounds, else `owner_board[r][c]`. -/
def get_cell_owner (g : BaseSOSGame) (r c : Int) : Option String :=
  if ¬ g.in_bounds r c then none else g.owner_board r c

/-- Method `form_sos`: the 3-cell run starting at `(r,c)` in direction `(dr,dc)`
is fully in bounds and reads `S`, `O`, `S`. -/
def form_sos (g : BaseSOSGame) (r c dr dc : Int) : Bool :=
  if ¬ (g.in_bounds r c && g.in_bounds (r + dr) (c + dc)
        && g.in_bounds (r + 2*dr) (c + 2*dc)) then
    false
  else
    (g.board r c == some "S") && (g.board (r + dr) (c + dc) == some "O")
      && (g.board (r + 2*dr) (c + 2*dc) == some "S")

/-- One conditional append of the `check_for_sos` loop body: the singleton
line `(r, c, r + 2*dr, c + 2*dc)` when `form_sos` holds, else nothing. -/
def sos_try (g : BaseSOSGame) (r c dr dc : Int) : List (Int × Int × Int × Int) :=
  if g.form_sos r c dr dc then [(r, c, r + 2*dr, c + 2*dc)] else []

/-- The direction list of `check_for_sos`:
`[(0, 1), (1, 0), (1, 1), (1, -1)]`. -/
def directions : List (Int × Int) := [(0, 1), (1, 0), (1, 1), (1, -1)]

/-- Method `check_for_sos`: the loop over `directions` appends, for each `(dr,dc)`,
first the forward probe `(dr,dc)` and then the backward probe `(-dr,-dc)`
(note `r + 2*(-dr) = r - 2*dr`); unrolled here in the loop's order. -/
def check_for_sos (g : BaseSOSGame) (r c : Int) : List (Int × Int × Int × Int) :=
  sos_try g r c 0 1 ++ sos_try g r c 0 (-1)
    ++ sos_try g r c 1 0 ++ sos_try g r c (-1) 0
    ++ sos_try g r c 1 1 ++ sos_try g r c (-1) (-1)
    ++ sos_try g r c 1 (-1) ++ sos_try g r c (-1) 1

/-- Modelled from the spec: `isBoardFull()` is listed in §6 of the spec and
called at `main.py:133`, but no `is_board_full` method is defined anywhere
in the repository.  Per §3 of the spec a full board is detected by
`moveCount == N²`. -/
def is_board_full (g : BaseSOSGame) : Bool :=
  g.move_count == g.board_size * g.board_size

end BaseSOSGame

/-- The whitespace characters removed by Python `str.strip()` (the ASCII
ones; the Unicode space characters are irrelevant to this code, which only
compares the result against `"S"` and `"O"`). -/
def isPySpace (ch : Char) : Bool :=
  ch = ' ' || ch = '\t' || ch = '\n' || ch = '\r' || ch = '\x0b' || ch = '\x0c'

/-- Python `str.upper()` on a single character (the ASCII case; Unicode
case mapping is irrelevant to this code for the same reason). -/
def pyUpperChar (ch : Char) : Char :=
  if 'a' ≤ ch ∧ ch ≤ 'z' then Char.ofNat (ch.toNat - 32) else ch

/-- The Python inline normalization `letter.strip().upper()`: drop leading
and trailing whitespace, then uppercase every character. -/
def normalize_letter (letter : String) : String :=
  ⟨(((letter.data.dropWhile isPySpace).reverse.dropWhile isPySpace).reverse).map
      pyUpperChar⟩

/-- State of the Python class `SimpleSOSGame`: the inherited base state
plus the `winner` attribute set in `SimpleSOSGame.__init__`. -/
structure SimpleSOSGame where
  base : BaseSOSGame
  winner : Option String

namespace SimpleSOSGame

/-- Constructor `SimpleSOSGame.__init__`: `super().__init__(board_size)` then
`self.winner = None`. -/
def init (board_size : Int) : SimpleSOSGame :=
  { base := BaseSOSGame.init board_size, winner := none }

/-- Method `reset_game` as inherited by `SimpleSOSGame`: the method body assigns
only the base attributes, so `winner` is left untouched. -/
def reset_game (g : SimpleSOSGame) : SimpleSOSGame :=
  { base := g.base.reset_game, winner := g.winner }

/-- Method `SimpleSOSGame.make_move`. -/
def make_move (g : SimpleSOSGame) (r c : Int) (letter : String) :
    Bool × SimpleSOSGame :=
  if g.base.game_over then (false, g)
  else
    let letter := normalize_letter letter
    if ¬ (letter = "S" ∨ letter = "O") ∨ ¬ g.base.cell_empty r c then (false, g)
    else
      let b1 : BaseSOSGame :=
        { g.base with
          board := updAt g.base.board r c (some letter)
          move_count := g.base.move_count + 1
          owner_board := updAt g.base.owner_board r c (some g.base.current_turn)
          last_move_player := some g.base.current_turn }
      let sos_lines := b1.check_for_sos r c
      let b2 : BaseSOSGame := { b1 with last_sos_lines := sos_lines }
      if sos_lines ≠ [] then
        (true, { base := { b2 with game_over := true },
                 winner := some g.base.current_turn })
      else
        (true, { base := b2.toggle_turn, winner := g.winner })

end SimpleSOSGame

/-- State of the Python class `GeneralSOSGame`: the inherited base state
plus the `scores` dict (modelled as a total function on player names; the
code only ever indexes it with `current_turn`, which is `"blue"` or
`"red"`). -/
structure GeneralSOSGame where
  base : BaseSOSGame
  scores : String → Int

namespace GeneralSOSGame

/-- Constructor `GeneralSOSGame.__init__`: `super().__init__(board_size)` then
`self.scores = {"blue": 0, "red": 0}`. -/
def init (board_size : Int) : GeneralSOSGame :=
  { base := BaseSOSGame.init board_size, scores := fun _ => 0 }

/-- Method `reset_game` as inherited by `GeneralSOSGame`: only the base
attributes are reassigned, so `scores` is left untouched. -/
def reset_game (g : GeneralSOSGame) : GeneralSOSGame :=
  { base := g.base.reset_game, scores := g.scores }

/-- Method `GeneralSOSGame.make_move`. -/
def make_move (g : GeneralSOSGame) (r c : Int) (letter : String) :
    Bool × GeneralSOSGame :=
  if g.base.game_over then (false, g)
  else
    let letter := normalize_letter letter
    if ¬ (letter = "S" ∨ letter = "O") ∨ ¬ g.base.cell_empty r c then (false, g)
    else
      let b1 : BaseSOSGame :=
        { g.base with
          board := updAt g.base.board r c (some letter)
          move_count := g.base.move_count + 1
          owner_board := updAt g.base.owner_board r c (some g.base.current_turn)
          last_move_player := some g.base.current_turn }
      let sos_lines := b1.check_for_sos r c
      let b2 : BaseSOSGame := { b1 with last_sos_lines := sos_lines }
      let scores' : String → Int :=
        if sos_lines ≠ [] then
          fun p => if p = g.base.current_turn then
                     g.scores p + (sos_lines.length : Int)
                   else g.scores p
        else g.scores
      let b3 : BaseSOSGame := b2.toggle_turn
      let b4 : BaseSOSGame :=
        if b3.move_count ≥ g.base.board_size * g.base.board_size then
          { b3 with game_over := true }
        else b3
      (true, { base := b4, scores := scores' })

end GeneralSOSGame

/-- The base state right after the four placement assignments shared by the
two `make_move` bodies (board write, move-count increment, owner write,
last-mover record), parameterized by the already-normalized letter `L`. -/
def placedBase (b : BaseSOSGame) (r c : Int) (L : String) : BaseSOSGame :=
  { b with
    board := updAt b.board r c (some L)
    move_count := b.move_count + 1
    owner_board := updAt b.owner_board r c (some b.current_turn)
    last_move_player := some b.current_turn }

/-- States of a first-SOS-wins game reachable from a fresh instance by any
sequence of `make_move` and `reset_game` calls. -/
inductive SimpleReachable : SimpleSOSGame → Prop
  | init (board_size : Int) : SimpleReachable (SimpleSOSGame.init board_size)
  | move (g : SimpleSOSGame) (r c : Int) (letter : String) :
      SimpleReachable g → SimpleReachable (g.make_move r c letter).2
  | reset (g : SimpleSOSGame) : SimpleReachable g → SimpleReachable g.reset_game

/-- States of a cumulative-scoring game reachable from a fresh instance by
any sequence of `make_move` and `reset_game` calls. -/
inductive GeneralReachable : GeneralSOSGame → Prop
  | init (board_size : Int) : GeneralReachable (GeneralSOSGame.init board_size)
  | move (g : GeneralSOSGame) (r c : Int) (letter : String) :
      GeneralReachable g → GeneralReachable (g.make_move r c letter).2
  | reset (g : GeneralSOSGame) : GeneralReachable g → GeneralReachable g.reset_game

/-- A concrete cumulative-scoring position: blue S(0,0), red O(1,1), blue
S(2,0), red O(2,1) on a 3×3 board, blue to move (no SOS formed yet).  Blue
playing S at (2,2) completes the bottom row and the main diagonal at once. -/
def genPos : GeneralSOSGame :=
  (((((GeneralSOSGame.init 3).make_move 0 0 "S").2.make_move 1 1 "O").2.make_move
    2 0 "S").2.make_move 2 1 "O").2

/-- A concrete first-SOS-wins position: blue S(0,0), red O(0,1) on a 3×3
board, blue to move.  Blue playing S at (0,2) completes the top row. -/
def simpPos : SimpleSOSGame :=
  (((SimpleSOSGame.init 3).make_move 0 0 "S").2.make_move 0 1 "O").2

/-- The position `simpPos` after blue's winning move S(0,2). -/
def simpWon : SimpleSOSGame :=
  (simpPos.make_move 0 2 "S").2

/-- The current turn names one of the two players. -/
def turnValid (b : BaseSOSGame) : Prop :=
  b.current_turn = "blue" ∨ b.current_turn = "red"

/-- The owner grid is set exactly where the value grid is, and every set
owner names one of the two players. -/
def cellsConsistent (b : BaseSOSGame) : Prop :=
  ∀ r c : Int,
    (b.owner_board r c = none ↔ b.board r c = none) ∧
    (b.owner_board r c = none ∨ b.owner_board r c = some "blue" ∨
      b.owner_board r c = some "red")

/-! ### Basic lemmas about the embedding -/

lemma updAt_same (f : Int → Int → Option String) (r c : Int) (v : Option String) :
    updAt f r c v r c = v := by
  simp [updAt]

lemma updAt_other (f : Int → Int → Option String) (r c : Int) (v : Option String)
    (r' c' : Int) (h : ¬ (r' = r ∧ c' = c)) : updAt f r c v r' c' = f r' c' := by
  simp [updAt, h]

namespace BaseSOSGame

lemma in_bounds_iff (g : BaseSOSGame) (r c : Int) :
    g.in_bounds r c = true ↔
      (0 ≤ r ∧ r < g.board_size) ∧ (0 ≤ c ∧ c < g.board_size) := by
  simp [in_bounds]

lemma cell_empty_iff (g : BaseSOSGame) (r c : Int) :
    g.cell_empty r c = true ↔ g.in_bounds r c = true ∧ g.board r c = none := by
  simp [cell_empty]

lemma get_cell_eq_some (g : BaseSOSGame) (r c : Int) (v : String) :
    g.get_cell r c = some v ↔ g.in_bounds r c = true ∧ g.board r c = some v := by
  unfold get_cell
  by_cases h : g.in_bounds r c = true <;> simp [h]

lemma form_sos_iff (g : BaseSOSGame) (r c dr dc : Int) :
    g.form_sos r c dr dc = true ↔
      g.get_cell r c = some "S" ∧ g.get_cell (r + dr) (c + dc) = some "O" ∧
        g.get_cell (r + 2*dr) (c + 2*dc) = some "S" := by
  unfold form_sos
  by_cases h1 : g.in_bounds r c = true <;>
    by_cases h2 : g.in_bounds (r + dr) (c + dc) = true <;>
      by_cases h3 : g.in_bounds (r + 2*dr) (c + 2*dc) = true <;>
        simp [h1, h2, h3, get_cell_eq_some, and_assoc]

lemma mem_sos_try (g : BaseSOSGame) (r c dr dc : Int) (l : Int × Int × Int × Int) :
    l ∈ g.sos_try r c dr dc ↔
      g.form_sos r c dr dc = true ∧ l = (r, c, r + 2*dr, c + 2*dc) := by
  unfold sos_try
  split <;> simp_all

end BaseSOSGame

namespace SimpleSOSGame

lemma simple_reject (g : SimpleSOSGame) (r c : Int) (letter : String)
    (h : g.base.game_over = true ∨
      ¬ (normalize_letter letter = "S" ∨ normalize_letter letter = "O") ∨
      g.base.cell_empty r c = false) :
    g.make_move r c letter = (false, g) := by
  unfold make_move
  by_cases hgo : g.base.game_over = true
  · simp [hgo]
  · rcases h with h | h | h
    · exact absurd h hgo
    · simp [hgo, h]
    · simp [hgo, h]

lemma simple_ret_true (g : SimpleSOSGame) (r c : Int) (letter : String)
    (h : (g.make_move r c letter).1 = true) :
    g.base.game_over = false ∧
      (normalize_letter letter = "S" ∨ normalize_letter letter = "O") ∧
      g.base.cell_empty r c = true := by
  by_cases h1 : g.base.game_over = true
  · rw [simple_reject g r c letter (Or.inl h1)] at h
    cases h
  by_cases h2 : normalize_letter letter = "S" ∨ normalize_letter letter = "O"
  case neg =>
    rw [simple_reject g r c letter (Or.inr (Or.inl h2))] at h
    cases h
  by_cases h3 : g.base.cell_empty r c = true
  · exact ⟨Bool.not_eq_true _ ▸ h1, h2, h3⟩
  · rw [simple_reject g r c letter
      (Or.inr (Or.inr (Bool.not_eq_true _ ▸ h3)))] at h
    cases h

lemma simple_succ (g : SimpleSOSGame) (r c : Int) (letter : String)
    (hgo : g.base.game_over = false)
    (hl : normalize_letter letter = "S" ∨ normalize_letter letter = "O")
    (hc : g.base.cell_empty r c = true) :
    g.make_move r c letter =
      if (placedBase g.base r c (normalize_letter letter)).check_for_sos r c ≠ [] then
        (true,
          { base :=
              { placedBase g.base r c (normalize_letter letter) with
                last_sos_lines :=
                  (placedBase g.base r c (normalize_letter letter)).check_for_sos r c
                game_over := true }
            winner := some g.base.current_turn })
      else
        (true,
          { base :=
              { placedBase g.base r c (normalize_letter letter) with
                last_sos_lines :=
                  (placedBase g.base r c (normalize_letter letter)).check_for_sos r c
                current_turn :=
                  if g.base.current_turn = "blue" then "red" else "blue" }
            winner := g.winner }) := by
  unfold make_move
  rcases hl with h | h <;>
    simp [hgo, h, hc, placedBase, BaseSOSGame.toggle_turn]

lemma simple_not_ret_true (g : SimpleSOSGame) (r c : Int) (letter : String)
    (h : (g.make_move r c letter).1 ≠ true) : g.make_move r c letter = (false, g) := by
  by_cases h1 : g.base.game_over = true
  · exact simple_reject _ _ _ _ (Or.inl h1)
  by_cases h2 : normalize_letter letter = "S" ∨ normalize_letter letter = "O"
  case neg => exact simple_reject _ _ _ _ (Or.inr (Or.inl h2))
  by_cases h3 : g.base.cell_empty r c = true
  · exfalso
    apply h
    rw [simple_succ g r c letter (Bool.not_eq_true _ ▸ h1) h2 h3]
    split <;> rfl
  · exact simple_reject _ _ _ _ (Or.inr (Or.inr (Bool.not_eq_true _ ▸ h3)))

/-- Full postcondition of a successful `SimpleSOSGame.make_move`. -/
lemma simple_post (g : SimpleSOSGame) (r c : Int) (letter : String)
    (h : (g.make_move r c letter).1 = true) :
    g.base.game_over = false ∧
      (normalize_letter letter = "S" ∨ normalize_letter letter = "O") ∧
      g.base.in_bounds r c = true ∧ g.base.board r c = none ∧
      (g.make_move r c letter).2.base.board_size = g.base.board_size ∧
      (g.make_move r c letter).2.base.board r c = some (normalize_letter letter) ∧
      (g.make_move r c letter).2.base.owner_board r c = some g.base.current_turn ∧
      (∀ r' c', ¬ (r' = r ∧ c' = c) →
        (g.make_move r c letter).2.base.board r' c' = g.base.board r' c' ∧
        (g.make_move r c letter).2.base.owner_board r' c' = g.base.owner_board r' c') ∧
      (g.make_move r c letter).2.base.move_count = g.base.move_count + 1 ∧
      (g.make_move r c letter).2.base.last_move_player = some g.base.current_turn ∧
      (g.make_move r c letter).2.base.last_sos_lines =
        (placedBase g.base r c (normalize_letter letter)).check_for_sos r c ∧
      ((g.make_move r c letter).2.base.last_sos_lines ≠ [] →
        (g.make_move r c letter).2.winner = some g.base.current_turn ∧
        (g.make_move r c letter).2.base.game_over = true ∧
        (g.make_move r c letter).2.base.current_turn = g.base.current_turn) ∧
      ((g.make_move r c letter).2.base.last_sos_lines = [] →
        (g.make_move r c letter).2.winner = g.winner ∧
        (g.make_move r c letter).2.base.game_over = false ∧
        (g.make_move r c letter).2.base.current_turn =
          (if g.base.current_turn = "blue" then "red" else "blue")) := by
  obtain ⟨hgo, hl, hc⟩ := simple_ret_true g r c letter h
  obtain ⟨hb, he⟩ := (BaseSOSGame.cell_empty_iff g.base r c).mp hc
  rw [simple_succ g r c letter hgo hl hc]
  generalize (placedBase g.base r c (normalize_letter letter)).check_for_sos r c = lines
  by_cases hs : lines = [] <;>
    simp [hs, placedBase, updAt_same, hgo, hl, hb, he] <;>
    intro r' c' h' <;>
    constructor <;>
    exact updAt_other _ _ _ _ _ _ (by tauto)

end SimpleSOSGame

namespace GeneralSOSGame

lemma general_reject (g : GeneralSOSGame) (r c : Int) (letter : String)
    (h : g.base.game_over = true ∨
      ¬ (normalize_letter letter = "S" ∨ normalize_letter letter = "O") ∨
      g.base.cell_empty r c = false) :
    g.make_move r c letter = (false, g) := by
  unfold make_move
  by_cases hgo : g.base.game_over = true
  · simp [hgo]
  · rcases h with h | h | h
    · exact absurd h hgo
    · simp [hgo, h]
    · simp [hgo, h]

lemma general_ret_true (g : GeneralSOSGame) (r c : Int) (letter : String)
    (h : (g.make_move r c letter).1 = true) :
    g.base.game_over = false ∧
      (normalize_letter letter = "S" ∨ normalize_letter letter = "O") ∧
      g.base.cell_empty r c = true := by
  by_cases h1 : g.base.game_over = true
  · rw [general_reject g r c letter (Or.inl h1)] at h
    cases h
  by_cases h2 : normalize_letter letter = "S" ∨ normalize_letter letter = "O"
  case neg =>
    rw [general_reject g r c letter (Or.inr (Or.inl h2))] at h
    cases h
  by_cases h3 : g.base.cell_empty r c = true
  · exact ⟨Bool.not_eq_true _ ▸ h1, h2, h3⟩
  · rw [general_reject g r c letter
      (Or.inr (Or.inr (Bool.not_eq_true _ ▸ h3)))] at h
    cases h

lemma general_succ (g : GeneralSOSGame) (r c : Int) (letter : String)
    (hgo : g.base.game_over = false)
    (hl : normalize_letter letter = "S" ∨ normalize_letter letter = "O")
    (hc : g.base.cell_empty r c = true) :
    g.make_move r c letter =
      (true,
        { base :=
            if g.base.move_count + 1 ≥ g.base.board_size * g.base.board_size then
              { placedBase g.base r c (normalize_letter letter) with
                last_sos_lines :=
                  (placedBase g.base r c (normalize_letter letter)).check_for_sos r c
                current_turn :=
                  if g.base.current_turn = "blue" then "red" else "blue"
                game_over := true }
            else
              { placedBase g.base r c (normalize_letter letter) with
                last_sos_lines :=
                  (placedBase g.base r c (normalize_letter letter)).check_for_sos r c
                current_turn :=
                  if g.base.current_turn = "blue" then "red" else "blue" }
          scores :=
            if (placedBase g.base r c (normalize_letter letter)).check_for_sos r c ≠ [] then
              fun p => if p = g.base.current_turn then
                  g.scores p +
                    (((placedBase g.base r c
                        (normalize_letter letter)).check_for_sos r c).length : Int)
                else g.scores p
            else g.scores }) := by
  unfold make_move
  rcases hl with h | h <;>
    simp [hgo, h, hc, placedBase, BaseSOSGame.toggle_turn]

lemma general_not_ret_true (g : GeneralSOSGame) (r c : Int) (letter : String)
    (h : (g.make_move r c letter).1 ≠ true) : g.make_move r c letter = (false, g) := by
  by_cases h1 : g.base.game_over = true
  · exact general_reject _ _ _ _ (Or.inl h1)
  by_cases h2 : normalize_letter letter = "S" ∨ normalize_letter letter = "O"
  case neg => exact general_reject _ _ _ _ (Or.inr (Or.inl h2))
  by_cases h3 : g.base.cell_empty r c = true
  · exact absurd (by rw [general_succ g r c letter (Bool.not_eq_true _ ▸ h1) h2 h3]) h
  · exact general_reject _ _ _ _ (Or.inr (Or.inr (Bool.not_eq_true _ ▸ h3)))

/-- Full postcondition of a successful `GeneralSOSGame.make_move`. -/
lemma general_post (g : GeneralSOSGame) (r c : Int) (letter : String)
    (h : (g.make_move r c letter).1 = true) :
    g.base.game_over = false ∧
      (normalize_letter letter = "S" ∨ normalize_letter letter = "O") ∧
      g.base.in_bounds r c = true ∧ g.base.board r c = none ∧
      (g.make_move r c letter).2.base.board_size = g.base.board_size ∧
      (g.make_move r c letter).2.base.board r c = some (normalize_letter letter) ∧
      (g.make_move r c letter).2.base.owner_board r c = some g.base.current_turn ∧
      (∀ r' c', ¬ (r' = r ∧ c' = c) →
        (g.make_move r c letter).2.base.board r' c' = g.base.board r' c' ∧
        (g.make_move r c letter).2.base.owner_board r' c' = g.base.owner_board r' c') ∧
      (g.make_move r c letter).2.base.move_count = g.base.move_count + 1 ∧
      (g.make_move r c letter).2.base.last_move_player = some g.base.current_turn ∧
      (g.make_move r c letter).2.base.last_sos_lines =
        (placedBase g.base r c (normalize_letter letter)).check_for_sos r c ∧
      (g.make_move r c letter).2.scores g.base.current_turn =
        g.scores g.base.current_turn +
          (((g.make_move r c letter).2.base.last_sos_lines).length : Int) ∧
      (∀ p, p ≠ g.base.current_turn →
        (g.make_move r c letter).2.scores p = g.scores p) ∧
      (g.make_move r c letter).2.base.current_turn =
        (if g.base.current_turn = "blue" then "red" else "blue") ∧
      ((g.make_move r c letter).2.base.game_over = true ↔
        g.base.board_size * g.base.board_size ≤
          (g.make_move r c letter).2.base.move_count) := by
  obtain ⟨hgo, hl, hc⟩ := general_ret_true g r c letter h
  obtain ⟨hb, he⟩ := (BaseSOSGame.cell_empty_iff g.base r c).mp hc
  rw [general_succ g r c letter hgo hl hc]
  generalize (placedBase g.base r c (normalize_letter letter)).check_for_sos r c = lines
  by_cases hf : g.base.board_size * g.base.board_size ≤ g.base.move_count + 1 <;>
    by_cases hs : lines = [] <;>
    simp [hf, hs, placedBase, updAt_same, hgo, hl, hb, he] <;>
    exact fun r' c' h' => ⟨updAt_other _ _ _ _ _ _ (by tauto),
      updAt_other _ _ _ _ _ _ (by tauto)⟩

end GeneralSOSGame

lemma simple_reachable_inv (g : SimpleSOSGame) (h : SimpleReachable g) :
    turnValid g.base ∧ cellsConsistent g.base := by
  induction h with
  | init bs =>
      constructor
      · simp [turnValid, SimpleSOSGame.init, BaseSOSGame.init]
      · intro r c
        simp [SimpleSOSGame.init, BaseSOSGame.init]
  | move g r c letter _ ih =>
      by_cases hok : (g.make_move r c letter).1 = true
      · obtain ⟨hgo, hl, hbnd, hbn, hsz, hbrc, how, hframe, hcnt, hlmp, hlines, hwin, htog⟩ :=
          SimpleSOSGame.simple_post g r c letter hok
        constructor
        · simp only [turnValid]
          by_cases hL : (g.make_move r c letter).2.base.last_sos_lines = []
          · rw [(htog hL).2.2]
            by_cases hb : g.base.current_turn = "blue" <;> simp [hb]
          · rw [(hwin hL).2.2]
            exact ih.1
        · intro r' c'
          by_cases hcell : r' = r ∧ c' = c
          · obtain ⟨rfl, rfl⟩ := hcell
            rw [how, hbrc]
            refine ⟨by simp, ?_⟩
            rcases ih.1 with hb | hb <;> simp [hb]
          · obtain ⟨hb', ho'⟩ := hframe r' c' hcell
            rw [hb', ho']
            exact ih.2 r' c'
      · rw [SimpleSOSGame.simple_not_ret_true g r c letter hok]
        exact ih
  | reset g _ _ =>
      constructor
      · simp [turnValid, SimpleSOSGame.reset_game, BaseSOSGame.reset_game]
      · intro r c
        simp [SimpleSOSGame.reset_game, BaseSOSGame.reset_game]

lemma general_reachable_inv (g : GeneralSOSGame) (h : GeneralReachable g) :
    turnValid g.base ∧ cellsConsistent g.base := by
  induction h with
  | init bs =>
      constructor
      · simp [turnValid, GeneralSOSGame.init, BaseSOSGame.init]
      · intro r c
        simp [GeneralSOSGame.init, BaseSOSGame.init]
  | move g r c letter _ ih =>
      by_cases hok : (g.make_move r c letter).1 = true
      · obtain ⟨hgo, hl, hbnd, hbn, hsz, hbrc, how, hframe, hcnt, hlmp, hlines, hsc, hscp,
          htog, hend⟩ := GeneralSOSGame.general_post g r c letter hok
        constructor
        · simp only [turnValid]
          rw [htog]
          by_cases hb : g.base.current_turn = "blue" <;> simp [hb]
        · intro r' c'
          by_cases hcell : r' = r ∧ c' = c
          · obtain ⟨rfl, rfl⟩ := hcell
            rw [how, hbrc]
            refine ⟨by simp, ?_⟩
            rcases ih.1 with hb | hb <;> simp [hb]
          · obtain ⟨hb', ho'⟩ := hframe r' c' hcell
            rw [hb', ho']
            exact ih.2 r' c'
      · rw [GeneralSOSGame.general_not_ret_true g r c letter hok]
        exact ih
  | reset g _ _ =>
      constructor
      · simp [turnValid, GeneralSOSGame.reset_game, BaseSOSGame.reset_game]
      · intro r c
        simp [GeneralSOSGame.reset_game, BaseSOSGame.reset_game]


/-! ### Claim theorems -/

/-- C1 (code bug evidence): after blue wins a 3×3 first-SOS-wins game with
S(0,0), O(0,1), S(0,2), calling `reset_game` clears the base state (move
count 0, turn blue, game-over flag off) but leaves `winner` set to blue,
because the inherited `reset_game` reassigns only the base attributes; the
cumulative variant likewise keeps the scores accumulated before the reset
(blue still has 1 point). -/
theorem claim_C1_code_bug :
    (((((SimpleSOSGame.init 3).make_move 0 0 "S").2.make_move 0 1 "O").2.make_move
        0 2 "S").2.winner = some "blue") ∧
    ((((((SimpleSOSGame.init 3).make_move 0 0 "S").2.make_move 0 1 "O").2.make_move
        0 2 "S").2.reset_game).winner = some "blue") ∧
    ((((((SimpleSOSGame.init 3).make_move 0 0 "S").2.make_move 0 1 "O").2.make_move
        0 2 "S").2.reset_game).base.move_count = 0) ∧
    ((((((SimpleSOSGame.init 3).make_move 0 0 "S").2.make_move 0 1 "O").2.make_move
        0 2 "S").2.reset_game).base.current_turn = "blue") ∧
    ((((((SimpleSOSGame.init 3).make_move 0 0 "S").2.make_move 0 1 "O").2.make_move
        0 2 "S").2.reset_game).base.game_over = false) ∧
    (((((((GeneralSOSGame.init 3).make_move 0 0 "S").2.make_move 0 1 "O").2.make_move
        0 2 "S").2.reset_game).scores "blue") = 1) :=
  ⟨by decide, by decide, by decide, by decide, by decide, by decide⟩

/-- C2 (code bug evidence): on a fresh 3×3 first-SOS-wins game, the very
first move succeeds, leaves `winner` unset and the game not over and the
board not full — exactly the state in which `main.py:133` evaluates
`self.game.is_board_full()`, an attribute that no class of `game_logic.py`
defines (here `is_board_full` is modelled from the spec, `moveCount == N²`,
and is `false` in that state). -/
theorem claim_C2_code_bug :
    ((SimpleSOSGame.init 3).make_move 1 1 "S").1 = true ∧
    ((SimpleSOSGame.init 3).make_move 1 1 "S").2.winner = none ∧
    ((SimpleSOSGame.init 3).make_move 1 1 "S").2.base.game_over = false ∧
    ((SimpleSOSGame.init 3).make_move 1 1 "S").2.base.is_board_full = false ∧
    ((SimpleSOSGame.init 3).make_move 1 1 "S").2.base.move_count = 1 :=
  ⟨by decide, by decide, by decide, by decide, by decide⟩

/-- C3: a move request on a terminal game, or with a letter that does not
normalize to S or O, or targeting an out-of-bounds or non-empty cell, is
rejected and leaves the whole game state unchanged, in both variants. -/
theorem claim_C3 (gs : SimpleSOSGame) (gg : GeneralSOSGame) (r c : Int)
    (letter : String)
    (hs : gs.base.game_over = true ∨
      ¬ (normalize_letter letter = "S" ∨ normalize_letter letter = "O") ∨
      gs.base.in_bounds r c = false ∨ gs.base.board r c ≠ none)
    (hg : gg.base.game_over = true ∨
      ¬ (normalize_letter letter = "S" ∨ normalize_letter letter = "O") ∨
      gg.base.in_bounds r c = false ∨ gg.base.board r c ≠ none) :
    gs.make_move r c letter = (false, gs) ∧ gg.make_move r c letter = (false, gg) := by
  constructor
  · apply SimpleSOSGame.simple_reject
    rcases hs with h | h | h | h
    · exact Or.inl h
    · exact Or.inr (Or.inl h)
    · exact Or.inr (Or.inr (by simp [BaseSOSGame.cell_empty, h]))
    · exact Or.inr (Or.inr (by simp [BaseSOSGame.cell_empty, h]))
  · apply GeneralSOSGame.general_reject
    rcases hg with h | h | h | h
    · exact Or.inl h
    · exact Or.inr (Or.inl h)
    · exact Or.inr (Or.inr (by simp [BaseSOSGame.cell_empty, h]))
    · exact Or.inr (Or.inr (by simp [BaseSOSGame.cell_empty, h]))

/-- Witness for C3: the letter "X" is rejected on fresh games of both
variants without any state change. -/
theorem claim_C3_witness :
    (¬ (normalize_letter "X" = "S" ∨ normalize_letter "X" = "O")) ∧
    (SimpleSOSGame.init 3).make_move 0 0 "X" = (false, SimpleSOSGame.init 3) ∧
    (GeneralSOSGame.init 3).make_move 0 0 "X" = (false, GeneralSOSGame.init 3) := by
  have h := claim_C3 (SimpleSOSGame.init 3) (GeneralSOSGame.init 3) 0 0 "X"
    (Or.inr (Or.inl (by decide))) (Or.inr (Or.inl (by decide)))
  exact ⟨by decide, h.1, h.2⟩

/-- C7: `in_bounds` is true exactly when `0 ≤ r < N` and `0 ≤ c < N`, and
on out-of-bounds coordinates `get_cell` and `get_cell_owner` return the
empty/unset sentinel `none`. -/
theorem claim_C7 (g : BaseSOSGame) (r c : Int) :
    (g.in_bounds r c = true ↔
      (0 ≤ r ∧ r < g.board_size) ∧ (0 ≤ c ∧ c < g.board_size)) ∧
    (¬ ((0 ≤ r ∧ r < g.board_size) ∧ (0 ≤ c ∧ c < g.board_size)) →
      g.get_cell r c = none ∧ g.get_cell_owner r c = none) := by
  refine ⟨g.in_bounds_iff r c, fun h => ?_⟩
  have hb : g.in_bounds r c = false := by
    rw [← Bool.not_eq_true, g.in_bounds_iff r c]
    exact h
  simp [BaseSOSGame.get_cell, BaseSOSGame.get_cell_owner, hb]

/-- Witness for C7: row 3 is out of bounds on a 3×3 board and both query
operations return `none` there. -/
theorem claim_C7_witness :
    (¬ ((0 ≤ (3 : Int) ∧ (3 : Int) < (BaseSOSGame.init 3).board_size) ∧
        (0 ≤ (0 : Int) ∧ (0 : Int) < (BaseSOSGame.init 3).board_size))) ∧
    (BaseSOSGame.init 3).get_cell 3 0 = none ∧
    (BaseSOSGame.init 3).get_cell_owner 3 0 = none :=
  ⟨by decide, (claim_C7 (BaseSOSGame.init 3) 3 0).2 (by decide)⟩

/-- The function `make_move` depends on the letter only through its normalization
(first-SOS-wins variant). -/
lemma SimpleSOSGame.simple_congr (g : SimpleSOSGame) (r c : Int) (a b : String)
    (h : normalize_letter a = normalize_letter b) :
    g.make_move r c a = g.make_move r c b := by
  unfold make_move
  rw [h]

/-- The function `make_move` depends on the letter only through its normalization
(cumulative variant). -/
lemma GeneralSOSGame.general_congr (g : GeneralSOSGame) (r c : Int) (a b : String)
    (h : normalize_letter a = normalize_letter b) :
    g.make_move r c a = g.make_move r c b := by
  unfold make_move
  rw [h]

/-- A letter normalizing to the canonical target behaves exactly like the
target on an empty in-bounds cell of a non-terminal game (first-SOS-wins). -/
lemma SimpleSOSGame.simple_norm_move (g : SimpleSOSGame) (r c : Int) (letter target : String)
    (h1 : g.base.game_over = false) (h2 : g.base.cell_empty r c = true)
    (ht : normalize_letter letter = target) (hst : target = "S" ∨ target = "O") :
    g.make_move r c letter = g.make_move r c target ∧
    (g.make_move r c letter).1 = true ∧
    (g.make_move r c letter).2.base.board r c = some target := by
  have hS : normalize_letter letter = "S" ∨ normalize_letter letter = "O" := by
    rw [ht]
    exact hst
  have hok : (g.make_move r c letter).1 = true := by
    rw [simple_succ g r c letter h1 hS h2]
    split <;> rfl
  have hnt : normalize_letter target = target := by
    rcases hst with rfl | rfl <;> decide
  refine ⟨simple_congr g r c letter target (ht.trans hnt.symm), hok, ?_⟩
  rw [← ht]
  exact (simple_post g r c letter hok).2.2.2.2.2.1

/-- A letter normalizing to the canonical target behaves exactly like the
target on an empty in-bounds cell of a non-terminal game (cumulative). -/
lemma GeneralSOSGame.general_norm_move (g : GeneralSOSGame) (r c : Int) (letter target : String)
    (h1 : g.base.game_over = false) (h2 : g.base.cell_empty r c = true)
    (ht : normalize_letter letter = target) (hst : target = "S" ∨ target = "O") :
    g.make_move r c letter = g.make_move r c target ∧
    (g.make_move r c letter).1 = true ∧
    (g.make_move r c letter).2.base.board r c = some target := by
  have hS : normalize_letter letter = "S" ∨ normalize_letter letter = "O" := by
    rw [ht]
    exact hst
  have hok : (g.make_move r c letter).1 = true := by
    rw [general_succ g r c letter h1 hS h2]
  have hnt : normalize_letter target = target := by
    rcases hst with rfl | rfl <;> decide
  refine ⟨general_congr g r c letter target (ht.trans hnt.symm), hok, ?_⟩
  rw [← ht]
  exact (general_post g r c letter hok).2.2.2.2.2.1

/-- C4: in the first-SOS-wins variant, a successful move that completes at
least one SOS line returns true, sets the winner to the mover, sets the
terminal flag, and does not toggle the turn. -/
theorem claim_C4 (g : SimpleSOSGame) (r c : Int) (letter : String)
    (hok : (g.make_move r c letter).1 = true)
    (hlines : (g.make_move r c letter).2.base.last_sos_lines ≠ []) :
    (g.make_move r c letter).2.winner = some g.base.current_turn ∧
    (g.make_move r c letter).2.base.game_over = true ∧
    (g.make_move r c letter).2.base.current_turn = g.base.current_turn := by
  obtain ⟨_, _, _, _, _, _, _, _, _, _, _, hwin, _⟩ :=
    SimpleSOSGame.simple_post g r c letter hok
  exact hwin hlines

/-- Witness for C4: blue completes S-O-S on the top row as the third move
of a 3×3 first-SOS-wins game. -/
theorem claim_C4_witness :
    ((((SimpleSOSGame.init 3).make_move 0 0 "S").2.make_move 0 1 "O").2.make_move
        0 2 "S").1 = true ∧
    ((((SimpleSOSGame.init 3).make_move 0 0 "S").2.make_move 0 1 "O").2.make_move
        0 2 "S").2.base.last_sos_lines ≠ [] ∧
    (((((SimpleSOSGame.init 3).make_move 0 0 "S").2.make_move 0 1 "O").2.make_move
        0 2 "S").2.winner =
      some ((((SimpleSOSGame.init 3).make_move 0 0 "S").2.make_move
        0 1 "O").2.base.current_turn) ∧
    ((((SimpleSOSGame.init 3).make_move 0 0 "S").2.make_move 0 1 "O").2.make_move
        0 2 "S").2.base.game_over = true ∧
    ((((SimpleSOSGame.init 3).make_move 0 0 "S").2.make_move 0 1 "O").2.make_move
        0 2 "S").2.base.current_turn =
      (((SimpleSOSGame.init 3).make_move 0 0 "S").2.make_move
        0 1 "O").2.base.current_turn) :=
  ⟨by decide, by decide,
    claim_C4 (((SimpleSOSGame.init 3).make_move 0 0 "S").2.make_move 0 1 "O").2
      0 2 "S" (by decide) (by decide)⟩

/-- C5: in the cumulative variant, every successful move adds exactly the
number of completed SOS lines to the mover's score, leaves the other
player's score unchanged, toggles the turn unconditionally, and sets the
terminal flag exactly when the move counter has reached N². -/
theorem claim_C5 (g : GeneralSOSGame) (r c : Int) (letter : String)
    (hok : (g.make_move r c letter).1 = true) :
    (g.make_move r c letter).2.scores g.base.current_turn =
      g.scores g.base.current_turn +
        (((g.make_move r c letter).2.base.last_sos_lines).length : Int) ∧
    (∀ p, p ≠ g.base.current_turn →
      (g.make_move r c letter).2.scores p = g.scores p) ∧
    (g.make_move r c letter).2.base.current_turn =
      (if g.base.current_turn = "blue" then "red" else "blue") ∧
    ((g.make_move r c letter).2.base.game_over = true ↔
      g.base.board_size * g.base.board_size ≤
        (g.make_move r c letter).2.base.move_count) := by
  obtain ⟨_, _, _, _, _, _, _, _, _, _, _, hsc, hscp, htog, hend⟩ :=
    GeneralSOSGame.general_post g r c letter hok
  exact ⟨hsc, hscp, htog, hend⟩


/-- Witness for C5: in `genPos`, blue's S at the corner (2,2) completes the
bottom row and the main diagonal simultaneously, adding exactly 2 to blue's
score in one call. -/
theorem claim_C5_witness :
    (genPos.make_move 2 2 "S").1 = true ∧
    (genPos.make_move 2 2 "S").2.base.last_sos_lines.length = 2 ∧
    (genPos.make_move 2 2 "S").2.scores "blue" = 2 ∧
    ((genPos.make_move 2 2 "S").2.scores genPos.base.current_turn =
      genPos.scores genPos.base.current_turn +
        (((genPos.make_move 2 2 "S").2.base.last_sos_lines).length : Int) ∧
    (∀ p, p ≠ genPos.base.current_turn →
      (genPos.make_move 2 2 "S").2.scores p = genPos.scores p) ∧
    (genPos.make_move 2 2 "S").2.base.current_turn =
      (if genPos.base.current_turn = "blue" then "red" else "blue") ∧
    ((genPos.make_move 2 2 "S").2.base.game_over = true ↔
      genPos.base.board_size * genPos.base.board_size ≤
        (genPos.make_move 2 2 "S").2.base.move_count)) :=
  ⟨by decide, by decide, by decide, claim_C5 genPos 2 2 "S" (by decide)⟩

/-- C8: every successful move changes exactly the targeted cell from empty
to the placed letter, leaves every other cell unchanged, and increments the
move counter by exactly 1, in both variants. -/
theorem claim_C8 (gs : SimpleSOSGame) (gg : GeneralSOSGame) (rs cs rg cg : Int)
    (ls lg : String)
    (hs : (gs.make_move rs cs ls).1 = true)
    (hg : (gg.make_move rg cg lg).1 = true) :
    (gs.base.board rs cs = none ∧
      (gs.make_move rs cs ls).2.base.board rs cs = some (normalize_letter ls) ∧
      (∀ r' c', ¬ (r' = rs ∧ c' = cs) →
        (gs.make_move rs cs ls).2.base.board r' c' = gs.base.board r' c') ∧
      (gs.make_move rs cs ls).2.base.move_count = gs.base.move_count + 1) ∧
    (gg.base.board rg cg = none ∧
      (gg.make_move rg cg lg).2.base.board rg cg = some (normalize_letter lg) ∧
      (∀ r' c', ¬ (r' = rg ∧ c' = cg) →
        (gg.make_move rg cg lg).2.base.board r' c' = gg.base.board r' c') ∧
      (gg.make_move rg cg lg).2.base.move_count = gg.base.move_count + 1) := by
  obtain ⟨_, _, _, hbn, _, hbrc, _, hframe, hcnt, _⟩ :=
    SimpleSOSGame.simple_post gs rs cs ls hs
  obtain ⟨_, _, _, hbn', _, hbrc', _, hframe', hcnt', _⟩ :=
    GeneralSOSGame.general_post gg rg cg lg hg
  exact ⟨⟨hbn, hbrc, fun r' c' h' => (hframe r' c' h').1, hcnt⟩,
    ⟨hbn', hbrc', fun r' c' h' => (hframe' r' c' h').1, hcnt'⟩⟩

/-- Witness for C8: the first move on a fresh 3×3 game of each variant. -/
theorem claim_C8_witness :
    ((SimpleSOSGame.init 3).make_move 0 0 "S").1 = true ∧
    ((GeneralSOSGame.init 3).make_move 0 0 "O").1 = true ∧
    (((SimpleSOSGame.init 3).base.board 0 0 = none ∧
      ((SimpleSOSGame.init 3).make_move 0 0 "S").2.base.board 0 0 =
        some (normalize_letter "S") ∧
      (∀ r' c', ¬ (r' = 0 ∧ c' = 0) →
        ((SimpleSOSGame.init 3).make_move 0 0 "S").2.base.board r' c' =
          (SimpleSOSGame.init 3).base.board r' c') ∧
      ((SimpleSOSGame.init 3).make_move 0 0 "S").2.base.move_count =
        (SimpleSOSGame.init 3).base.move_count + 1) ∧
    ((GeneralSOSGame.init 3).base.board 0 0 = none ∧
      ((GeneralSOSGame.init 3).make_move 0 0 "O").2.base.board 0 0 =
        some (normalize_letter "O") ∧
      (∀ r' c', ¬ (r' = 0 ∧ c' = 0) →
        ((GeneralSOSGame.init 3).make_move 0 0 "O").2.base.board r' c' =
          (GeneralSOSGame.init 3).base.board r' c') ∧
      ((GeneralSOSGame.init 3).make_move 0 0 "O").2.base.move_count =
        (GeneralSOSGame.init 3).base.move_count + 1)) :=
  ⟨by decide, by decide,
    claim_C8 (SimpleSOSGame.init 3) (GeneralSOSGame.init 3) 0 0 0 0 "S" "O"
      (by decide) (by decide)⟩

/-- C10: in both variants `make_move` strips whitespace and uppercases the
letter before validating, so on an empty in-bounds cell of a non-terminal
game the letters "s", " S ", "o" and " o " succeed, place the canonical
uppercase letter, and yield exactly the state the canonical call yields. -/
theorem claim_C10 (gs : SimpleSOSGame) (gg : GeneralSOSGame) (r c : Int)
    (hs1 : gs.base.game_over = false) (hs2 : gs.base.cell_empty r c = true)
    (hg1 : gg.base.game_over = false) (hg2 : gg.base.cell_empty r c = true) :
    (gs.make_move r c "s" = gs.make_move r c "S" ∧
      (gs.make_move r c "s").1 = true ∧
      (gs.make_move r c "s").2.base.board r c = some "S") ∧
    (gs.make_move r c " S " = gs.make_move r c "S" ∧
      (gs.make_move r c " S ").1 = true ∧
      (gs.make_move r c " S ").2.base.board r c = some "S") ∧
    (gs.make_move r c "o" = gs.make_move r c "O" ∧
      (gs.make_move r c "o").1 = true ∧
      (gs.make_move r c "o").2.base.board r c = some "O") ∧
    (gs.make_move r c " o " = gs.make_move r c "O" ∧
      (gs.make_move r c " o ").1 = true ∧
      (gs.make_move r c " o ").2.base.board r c = some "O") ∧
    (gg.make_move r c "s" = gg.make_move r c "S" ∧
      (gg.make_move r c "s").1 = true ∧
      (gg.make_move r c "s").2.base.board r c = some "S") ∧
    (gg.make_move r c " S " = gg.make_move r c "S" ∧
      (gg.make_move r c " S ").1 = true ∧
      (gg.make_move r c " S ").2.base.board r c = some "S") ∧
    (gg.make_move r c "o" = gg.make_move r c "O" ∧
      (gg.make_move r c "o").1 = true ∧
      (gg.make_move r c "o").2.base.board r c = some "O") ∧
    (gg.make_move r c " o " = gg.make_move r c "O" ∧
      (gg.make_move r c " o ").1 = true ∧
      (gg.make_move r c " o ").2.base.board r c = some "O") :=
  ⟨SimpleSOSGame.simple_norm_move gs r c "s" "S" hs1 hs2 (by decide) (Or.inl rfl),
   SimpleSOSGame.simple_norm_move gs r c " S " "S" hs1 hs2 (by decide) (Or.inl rfl),
   SimpleSOSGame.simple_norm_move gs r c "o" "O" hs1 hs2 (by decide) (Or.inr rfl),
   SimpleSOSGame.simple_norm_move gs r c " o " "O" hs1 hs2 (by decide) (Or.inr rfl),
   GeneralSOSGame.general_norm_move gg r c "s" "S" hg1 hg2 (by decide) (Or.inl rfl),
   GeneralSOSGame.general_norm_move gg r c " S " "S" hg1 hg2 (by decide) (Or.inl rfl),
   GeneralSOSGame.general_norm_move gg r c "o" "O" hg1 hg2 (by decide) (Or.inr rfl),
   GeneralSOSGame.general_norm_move gg r c " o " "O" hg1 hg2 (by decide) (Or.inr rfl)⟩

/-- Witness for C10: the normalized letters land on the empty centre cell
of fresh 3×3 games of both variants. -/
theorem claim_C10_witness :
    (SimpleSOSGame.init 3).base.game_over = false ∧
    (SimpleSOSGame.init 3).base.cell_empty 1 1 = true ∧
    (GeneralSOSGame.init 3).base.game_over = false ∧
    (GeneralSOSGame.init 3).base.cell_empty 1 1 = true ∧
    ((SimpleSOSGame.init 3).make_move 1 1 " S " =
      (SimpleSOSGame.init 3).make_move 1 1 "S" ∧
      ((SimpleSOSGame.init 3).make_move 1 1 " S ").1 = true ∧
      ((SimpleSOSGame.init 3).make_move 1 1 " S ").2.base.board 1 1 = some "S") ∧
    ((GeneralSOSGame.init 3).make_move 1 1 " o " =
      (GeneralSOSGame.init 3).make_move 1 1 "O" ∧
      ((GeneralSOSGame.init 3).make_move 1 1 " o ").1 = true ∧
      ((GeneralSOSGame.init 3).make_move 1 1 " o ").2.base.board 1 1 = some "O") :=
  ⟨by decide, by decide, by decide, by decide,
   (claim_C10 (SimpleSOSGame.init 3) (GeneralSOSGame.init 3) 1 1
     (by decide) (by decide) (by decide) (by decide)).2.1,
   (claim_C10 (SimpleSOSGame.init 3) (GeneralSOSGame.init 3) 1 1
     (by decide) (by decide) (by decide) (by decide)).2.2.2.2.2.2.2⟩

/-- Forward half of the C6 characterization: every reported line comes
from one of the 8 signed probes with an in-bounds S-O-S run. -/
lemma check_for_sos_mem_forward (g : BaseSOSGame) (r c : Int)
    (l : Int × Int × Int × Int) (hm : l ∈ g.check_for_sos r c) :
    ∃ dr dc : Int,
      ((dr, dc) ∈ BaseSOSGame.directions ∨
        (-dr, -dc) ∈ BaseSOSGame.directions) ∧
      g.get_cell r c = some "S" ∧
      g.get_cell (r + dr) (c + dc) = some "O" ∧
      g.get_cell (r + 2*dr) (c + 2*dc) = some "S" ∧
      l = (r, c, r + 2*dr, c + 2*dc) := by
  simp only [BaseSOSGame.check_for_sos, List.mem_append,
    BaseSOSGame.mem_sos_try, or_assoc] at hm
  rcases hm with h | h | h | h | h | h | h | h <;>
    obtain ⟨hf, hl⟩ := h
  · obtain ⟨h1, h2, h3⟩ := (BaseSOSGame.form_sos_iff g r c 0 1).mp hf
    exact ⟨0, 1, Or.inl (by decide), h1, h2, h3, hl⟩
  · obtain ⟨h1, h2, h3⟩ := (BaseSOSGame.form_sos_iff g r c 0 (-1)).mp hf
    exact ⟨0, -1, Or.inr (by decide), h1, h2, h3, hl⟩
  · obtain ⟨h1, h2, h3⟩ := (BaseSOSGame.form_sos_iff g r c 1 0).mp hf
    exact ⟨1, 0, Or.inl (by decide), h1, h2, h3, hl⟩
  · obtain ⟨h1, h2, h3⟩ := (BaseSOSGame.form_sos_iff g r c (-1) 0).mp hf
    exact ⟨-1, 0, Or.inr (by decide), h1, h2, h3, hl⟩
  · obtain ⟨h1, h2, h3⟩ := (BaseSOSGame.form_sos_iff g r c 1 1).mp hf
    exact ⟨1, 1, Or.inl (by decide), h1, h2, h3, hl⟩
  · obtain ⟨h1, h2, h3⟩ := (BaseSOSGame.form_sos_iff g r c (-1) (-1)).mp hf
    exact ⟨-1, -1, Or.inr (by decide), h1, h2, h3, hl⟩
  · obtain ⟨h1, h2, h3⟩ := (BaseSOSGame.form_sos_iff g r c 1 (-1)).mp hf
    exact ⟨1, -1, Or.inl (by decide), h1, h2, h3, hl⟩
  · obtain ⟨h1, h2, h3⟩ := (BaseSOSGame.form_sos_iff g r c (-1) 1).mp hf
    exact ⟨-1, 1, Or.inr (by decide), h1, h2, h3, hl⟩

set_option maxHeartbeats 1600000 in
/-- Backward half of the C6 characterization: every in-bounds S-O-S run
along one of the 8 signed probes is reported. -/
lemma check_for_sos_mem_backward (g : BaseSOSGame) (r c dr dc : Int)
    (hd : (dr, dc) ∈ BaseSOSGame.directions ∨
      (-dr, -dc) ∈ BaseSOSGame.directions)
    (h1 : g.get_cell r c = some "S")
    (h2 : g.get_cell (r + dr) (c + dc) = some "O")
    (h3 : g.get_cell (r + 2*dr) (c + 2*dc) = some "S") :
    (r, c, r + 2*dr, c + 2*dc) ∈ g.check_for_sos r c := by
  have hf : g.form_sos r c dr dc = true :=
    (BaseSOSGame.form_sos_iff g r c dr dc).mpr ⟨h1, h2, h3⟩
  have hd2 : (dr = 0 ∧ dc = 1) ∨ (dr = 0 ∧ dc = -1) ∨ (dr = 1 ∧ dc = 0) ∨
      (dr = -1 ∧ dc = 0) ∨ (dr = 1 ∧ dc = 1) ∨ (dr = -1 ∧ dc = -1) ∨
      (dr = 1 ∧ dc = -1) ∨ (dr = -1 ∧ dc = 1) := by
    simp only [BaseSOSGame.directions, List.mem_cons, List.not_mem_nil,
      or_false, Prod.mk.injEq] at hd
    omega
  rcases hd2 with h | h | h | h | h | h | h | h <;>
    obtain ⟨rfl, rfl⟩ := h <;>
    simp [BaseSOSGame.check_for_sos, List.mem_append,
      BaseSOSGame.mem_sos_try, hf]

/-- The detector reports nothing when the played cell does not hold "S". -/
lemma check_for_sos_empty_of_ne (g : BaseSOSGame) (r c : Int)
    (hS : g.get_cell r c ≠ some "S") : g.check_for_sos r c = [] := by
  have hf : ∀ dr dc : Int, g.form_sos r c dr dc = false := by
    intro dr dc
    rw [← Bool.not_eq_true, BaseSOSGame.form_sos_iff]
    exact fun h => hS h.1
  simp [BaseSOSGame.check_for_sos, BaseSOSGame.sos_try, hf]

/-- C6: the detector returns exactly the in-bounds S-O-S runs that start at
the played cell and extend two steps along one of the 8 signed axis
directions, each reported as `(r, c, r+2*dr, c+2*dc)`; in particular a cell
that does not hold "S" (e.g. the middle "O" of a would-be line) yields the
empty list. -/
theorem claim_C6 (g : BaseSOSGame) (r c : Int) (l : Int × Int × Int × Int) :
    (l ∈ g.check_for_sos r c ↔
      ∃ dr dc : Int,
        ((dr, dc) ∈ BaseSOSGame.directions ∨
          (-dr, -dc) ∈ BaseSOSGame.directions) ∧
        g.get_cell r c = some "S" ∧
        g.get_cell (r + dr) (c + dc) = some "O" ∧
        g.get_cell (r + 2*dr) (c + 2*dc) = some "S" ∧
        l = (r, c, r + 2*dr, c + 2*dc)) ∧
    (g.get_cell r c ≠ some "S" → g.check_for_sos r c = []) := by
  refine ⟨⟨check_for_sos_mem_forward g r c l, ?_⟩,
    check_for_sos_empty_of_ne g r c⟩
  rintro ⟨dr, dc, hd, h1, h2, h3, rfl⟩
  exact check_for_sos_mem_backward g r c dr dc hd h1 h2 h3

/-- Witness for C6: in the finished game `simpWon` (S, O, S across the top
row), the detector at the middle "O" cell (0,1) returns nothing, while the
top-row line is detected from its "S" endpoint (0,2) via the backward probe
of direction (0,1). -/
theorem claim_C6_witness :
    simpWon.base.get_cell 0 1 ≠ some "S" ∧
    simpWon.base.check_for_sos 0 1 = [] ∧
    ((0 : Int), (2 : Int), (0 : Int), (0 : Int)) ∈ simpWon.base.check_for_sos 0 2 :=
  ⟨by decide, (claim_C6 simpWon.base 0 1 (0, 0, 0, 0)).2 (by decide),
    (claim_C6 simpWon.base 0 2 (0, 2, 0, 0)).1.mpr
      ⟨0, -1, Or.inr (by decide), by decide, by decide, by decide, by decide⟩⟩

/-- C9: in every state reachable by any sequence of moves and resets, in
both variants, a cell's owner is set (to "blue" or "red") exactly when the
cell's value is non-empty; and each successful move writes the placed
letter and the mover's ownership into the targeted cell together, touching
no other cell of either grid. -/
theorem claim_C9 :
    (∀ g : SimpleSOSGame, SimpleReachable g → cellsConsistent g.base) ∧
    (∀ g : GeneralSOSGame, GeneralReachable g → cellsConsistent g.base) ∧
    (∀ (g : SimpleSOSGame) (r c : Int) (letter : String),
      (g.make_move r c letter).1 = true →
        g.base.board r c = none ∧
        (g.make_move r c letter).2.base.board r c = some (normalize_letter letter) ∧
        (g.make_move r c letter).2.base.owner_board r c = some g.base.current_turn ∧
        ∀ r' c', ¬ (r' = r ∧ c' = c) →
          (g.make_move r c letter).2.base.board r' c' = g.base.board r' c' ∧
          (g.make_move r c letter).2.base.owner_board r' c' =
            g.base.owner_board r' c') ∧
    (∀ (g : GeneralSOSGame) (r c : Int) (letter : String),
      (g.make_move r c letter).1 = true →
        g.base.board r c = none ∧
        (g.make_move r c letter).2.base.board r c = some (normalize_letter letter) ∧
        (g.make_move r c letter).2.base.owner_board r c = some g.base.current_turn ∧
        ∀ r' c', ¬ (r' = r ∧ c' = c) →
          (g.make_move r c letter).2.base.board r' c' = g.base.board r' c' ∧
          (g.make_move r c letter).2.base.owner_board r' c' =
            g.base.owner_board r' c') := by
  refine ⟨fun g h => (simple_reachable_inv g h).2,
    fun g h => (general_reachable_inv g h).2, ?_, ?_⟩
  · intro g r c letter hok
    obtain ⟨_, _, _, hbn, _, hbrc, how, hframe, _⟩ :=
      SimpleSOSGame.simple_post g r c letter hok
    exact ⟨hbn, hbrc, how, hframe⟩
  · intro g r c letter hok
    obtain ⟨_, _, _, hbn, _, hbrc, how, hframe, _⟩ :=
      GeneralSOSGame.general_post g r c letter hok
    exact ⟨hbn, hbrc, how, hframe⟩

/-- Witness for C9: the won position `simpWon` is reachable and satisfies
the owner/value consistency invariant, and blue's winning move wrote both
the letter and the ownership of cell (0,2). -/
theorem claim_C9_witness :
    SimpleReachable simpWon ∧
    cellsConsistent simpWon.base ∧
    (simpPos.make_move 0 2 "S").1 = true ∧
    (simpPos.make_move 0 2 "S").2.base.board 0 2 = some (normalize_letter "S") ∧
    (simpPos.make_move 0 2 "S").2.base.owner_board 0 2 =
      some simpPos.base.current_turn := by
  have hreach : SimpleReachable simpWon :=
    SimpleReachable.move _ 0 2 "S" (SimpleReachable.move _ 0 1 "O"
      (SimpleReachable.move _ 0 0 "S" (SimpleReachable.init 3)))
  have hpost := claim_C9.2.2.1 simpPos 0 2 "S" (by decide)
  exact ⟨hreach, claim_C9.1 simpWon hreach, by decide, hpost.2.1, hpost.2.2.1⟩
